import Mathlib

/-!
Verification of the roguelike game engine (Python source under src/) against its
natural-language specification.  The Python code is shallowly embedded: mutable
objects become Lean structures, mutating methods become state-passing functions,
Python exceptions become explicit result constructors, and the random module is
modelled by an oracle (a list of natural numbers, one entry consumed per call to
a random primitive; each primitive maps its entry into the range the Python call
would produce, so every Python-reachable value sequence corresponds to some
oracle and conversely).
-/

/- ## Fighter component, from src/components/fighter.py -/

/-- State of the Fighter combat component (`Fighter.__init__`): fields `max_hp`,
`_hp` (exposed through the `hp` property), `base_defense`, `base_power`. -/
structure Fighter where
  max_hp : Int
  hp : Int
  base_defense : Int
  base_power : Int
deriving Repr, DecidableEq

/-- The `hp` property setter: `self._hp = max(0, min(value, self.max_hp))`.
The death trigger in the setter (`if self._hp == 0 and self.parent.ai`) does not
write `_hp`; it is modelled separately at world level for the death claims. -/
def Fighter.set_hp (f : Fighter) (value : Int) : Fighter :=
  { f with hp := max 0 (min value f.max_hp) }

/-- Model of `Fighter.take_damage`: `self.hp -= amount` (through the clamping setter). -/
def Fighter.take_damage (f : Fighter) (amount : Int) : Fighter :=
  f.set_hp (f.hp - amount)

/-- Model of `Fighter.heal`: returns the updated fighter and the recovered amount.
Source: if `hp == max_hp` return 0; else cap `hp + amount` at `max_hp`,
write it through the `hp` setter and return `new_hp_value - hp`. -/
def Fighter.heal (f : Fighter) (amount : Int) : Fighter × Int :=
  if f.hp = f.max_hp then (f, 0)
  else
    let new_hp_value := f.hp + amount
    let capped := if new_hp_value > f.max_hp then f.max_hp else new_hp_value
    (f.set_hp capped, capped - f.hp)

/-- The fighter part of `Level.increase_max_hp`:
`self.parent.fighter.max_hp += amount` (plain attribute write) followed by
`self.parent.fighter.hp += amount` (through the clamping `hp` setter). -/
def Fighter.increase_max_hp_mutation (f : Fighter) (amount : Int) : Fighter :=
  let f1 := { f with max_hp := f.max_hp + amount }
  f1.set_hp (f1.hp + amount)

/- ## Equipment and effective stats, from src/components/equipment.py -/

/-- An equippable descriptor: its power and defense bonuses
(src/components/equippable.py fields used by `Equipment`). -/
structure Equippable where
  power_bonus : Int
  defense_bonus : Int
deriving Repr, DecidableEq

/-- An item as far as the equipment bonus computation sees it: an identity and
an optional equippable descriptor. -/
structure Item where
  id : Nat
  equippable : Option Equippable
deriving Repr, DecidableEq

/-- Model of `Equipment`: the weapon and armor slots (each nullable). -/
structure Equipment where
  weapon : Option Item
  armor : Option Item
deriving Repr, DecidableEq

/-- Model of `Equipment.power_bonus`: sum of the power bonuses of the slot items whose
`equippable` is present. -/
def Equipment.power_bonus (e : Equipment) : Int :=
  (match e.weapon with
   | some w => match w.equippable with | some q => q.power_bonus | none => 0
   | none => 0) +
  (match e.armor with
   | some a => match a.equippable with | some q => q.power_bonus | none => 0
   | none => 0)

/-- Model of `Equipment.defense_bonus`: sum of the defense bonuses of the slot items
whose `equippable` is present. -/
def Equipment.defense_bonus (e : Equipment) : Int :=
  (match e.weapon with
   | some w => match w.equippable with | some q => q.defense_bonus | none => 0
   | none => 0) +
  (match e.armor with
   | some a => match a.equippable with | some q => q.defense_bonus | none => 0
   | none => 0)

/-- An actor as the melee code sees it: name, fighter and the optional
equipment component (`Fighter.power_bonus` returns 0 when
`self.parent.equipment` is absent). -/
structure CombatActor where
  name : String
  fighter : Fighter
  equipment : Option Equipment
deriving Repr, DecidableEq

/-- Model of `Fighter.power_bonus` through the owning actor. -/
def CombatActor.power_bonus (a : CombatActor) : Int :=
  match a.equipment with
  | some e => e.power_bonus
  | none => 0

/-- Model of `Fighter.defense_bonus` through the owning actor. -/
def CombatActor.defense_bonus (a : CombatActor) : Int :=
  match a.equipment with
  | some e => e.defense_bonus
  | none => 0

/-- Model of `Fighter.power`: `base_power + power_bonus`. -/
def CombatActor.power (a : CombatActor) : Int :=
  a.fighter.base_power + a.power_bonus

/-- Model of `Fighter.defense`: `base_defense + defense_bonus`. -/
def CombatActor.defense (a : CombatActor) : Int :=
  a.fighter.base_defense + a.defense_bonus

/- ## MeleeAction, from src/actions.py -/

/-- Model of `MeleeAction.perform`: with no actor at the destination raise
`Impossible("Nothing to attack")`; otherwise `damage = power - defense`; when
`damage > 0` write `target.fighter.hp -= damage` through the clamping setter
and log a hit message, else leave the target untouched and log a no-damage
message.  The updated target and the logged message are returned. -/
def MeleeAction.perform (attacker : CombatActor) (target : Option CombatActor) :
    Except String (CombatActor × String) :=
  match target with
  | none => Except.error "Nothing to attack"
  | some t =>
    let damage := attacker.power - t.defense
    let attack_desc := attacker.name ++ " attacks " ++ t.name
    if damage > 0 then
      Except.ok
        ({ t with fighter := t.fighter.set_hp (t.fighter.hp - damage) },
         attack_desc ++ " for " ++ toString damage ++ " hit points.")
    else
      Except.ok (t, attack_desc ++ " but does no damage")

/- ## HealingConsumable, from src/components/consumable.py -/

/-- Outcome of a consumable activation: Python lets mutations made before a
raise survive, so the `impossible` constructor also carries the state. -/
inductive ActivateOutcome where
  | ok (fighter : Fighter) (inventory : List Nat) (message : String)
  | impossible (reason : String) (fighter : Fighter) (inventory : List Nat)
deriving Repr, DecidableEq

/-- Model of `HealingConsumable.activate`: call `consumer.fighter.heal(self.amount)`;
if the recovered amount is positive, log it and `consume()` the item (remove it
from its owning inventory); else raise `Impossible("Your health is already
full.")` with the item left in the inventory. -/
def HealingConsumable.activate (amount : Int) (itemId : Nat)
    (inventory : List Nat) (f : Fighter) : ActivateOutcome :=
  let healed := f.heal amount
  if healed.2 > 0 then
    ActivateOutcome.ok healed.1 (inventory.erase itemId)
      ("You consume the item, and recover " ++ toString healed.2 ++ " HP")
  else
    ActivateOutcome.impossible "Your health is already full." healed.1 inventory

/- ## Level component, from src/components/level.py -/

/-- State of the `Level` component: `current_level`, `current_xp`,
`level_up_base`, `level_up_factor`, `xp_given`. -/
structure LevelComp where
  current_level : Int
  current_xp : Int
  level_up_base : Int
  level_up_factor : Int
  xp_given : Int
deriving Repr, DecidableEq

/-- Model of `Level.experience_to_next_level`: `level_up_base + current_level * level_up_factor`. -/
def LevelComp.experience_to_next_level (l : LevelComp) : Int :=
  l.level_up_base + l.current_level * l.level_up_factor

/-- Model of `Level.requires_level_up`: `current_xp > experience_to_next_level`. -/
def LevelComp.requires_level_up (l : LevelComp) : Bool :=
  l.current_xp > l.experience_to_next_level

/-- Model of `Level.add_xp`: return early (no change, no log) when `xp == 0` or
`level_up_base == 0`; otherwise add the xp, log it, and log an advance notice
when the threshold is now exceeded.  Returns the new component and the logged
messages. -/
def LevelComp.add_xp (l : LevelComp) (xp : Int) : LevelComp × List String :=
  if xp = 0 ∨ l.level_up_base = 0 then (l, [])
  else
    let l2 := { l with current_xp := l.current_xp + xp }
    let gained := ["You gain " ++ toString xp ++ " experience points."]
    if l2.requires_level_up then
      (l2, gained ++ ["You advance to level " ++ toString (l2.current_level + 1) ++ "!"])
    else (l2, gained)

/-- Model of `Level.increase_level`: `current_xp -= experience_to_next_level` then
`current_level += 1`. -/
def LevelComp.increase_level (l : LevelComp) : LevelComp :=
  { l with current_xp := l.current_xp - l.experience_to_next_level,
           current_level := l.current_level + 1 }

/- ## Python attribute assignment on Fighter, for the level-up stat choices -/

/-- Python attribute assignment on a `Fighter` instance, following
src/components/fighter.py: `max_hp`, `base_defense` and `base_power` are plain
instance attributes (writable); `hp` is a property with a declared setter (the
clamping write); `defense`, `power`, `defense_bonus` and `power_bonus` are
properties defined with a getter only, so assigning them raises
`AttributeError`.  Unknown attribute names would create a new instance
attribute and are outside the fields this model tracks. -/
def Fighter.setAttr (f : Fighter) (attr : String) (value : Int) :
    Except String Fighter :=
  if attr = "max_hp" then Except.ok { f with max_hp := value }
  else if attr = "base_defense" then Except.ok { f with base_defense := value }
  else if attr = "base_power" then Except.ok { f with base_power := value }
  else if attr = "hp" then Except.ok (f.set_hp value)
  else if attr = "defense" ∨ attr = "power" ∨
          attr = "defense_bonus" ∨ attr = "power_bonus" then
    Except.error ("AttributeError: property " ++ attr ++ " of Fighter object has no setter")
  else Except.error "unmodelled attribute"

/-- The player state the level-up handlers mutate: the player actor (fighter
and equipment) together with its Level component and the message log. -/
structure PlayerState where
  actor : CombatActor
  level : LevelComp
  messages : List String
deriving Repr, DecidableEq

/-- Model of `Level.increase_max_hp` (called with the default `amount = 20`):
`fighter.max_hp += amount` (plain attribute), `fighter.hp += amount` (clamping
setter), log, then `increase_level()`. -/
def Level.increase_max_hp (amount : Int) (st : PlayerState) :
    Except String PlayerState :=
  let f1 := { st.actor.fighter with max_hp := st.actor.fighter.max_hp + amount }
  let f2 := f1.set_hp (f1.hp + amount)
  Except.ok
    { st with actor := { st.actor with fighter := f2 },
              level := st.level.increase_level,
              messages := st.messages ++ ["Your health improves!"] }

/-- Model of `Level.increase_power` (default `amount = 1`): the statement
`self.parent.fighter.power += amount` reads the `power` property and assigns
the sum back through `Fighter.setAttr`; the assignment is the first statement
of the method, so nothing else runs when it raises. -/
def Level.increase_power (amount : Int) (st : PlayerState) :
    Except String PlayerState := do
  let f2 ← st.actor.fighter.setAttr "power" (st.actor.power + amount)
  Except.ok
    { st with actor := { st.actor with fighter := f2 },
              level := st.level.increase_level,
              messages := st.messages ++ ["You feel stronger!"] }

/-- Model of `Level.increase_defense` (default `amount = 1`): the statement
`self.parent.fighter.defense += amount`, same shape as `increase_power`. -/
def Level.increase_defense (amount : Int) (st : PlayerState) :
    Except String PlayerState := do
  let f2 ← st.actor.fighter.setAttr "defense" (st.actor.defense + amount)
  Except.ok
    { st with actor := { st.actor with fighter := f2 },
              level := st.level.increase_level,
              messages := st.messages ++ ["Your skin getting thicker!"] }

/- ## Turn dispatcher, from src/input_handlers.py and src/engine.py -/

/-- The engine state the dispatcher manipulates, reduced to what the claim
observes: the message log, how many enemy-turn batches ran, and how many times
the field of view was recomputed. -/
structure TurnState where
  messages : List String
  enemyActed : List String
  fovComputations : Nat
deriving Repr, DecidableEq

/-- A modelled `perform` of an action or of an enemy AI: it returns the state
after its side effects together with the message of the `Impossible` it raised,
if any (Python keeps mutations made before a raise). -/
def PerformFn : Type := TurnState → TurnState × Option String

/-- Model of `Engine.handle_enemy_turns`: invoke every enemy AI once; an `Impossible`
raised by an enemy action is swallowed (`except ... : pass`), keeping the state
the AI produced before raising. -/
def Engine.handle_enemy_turns (ais : List PerformFn) (st : TurnState) : TurnState :=
  ais.foldl (fun s ai => (ai s).1) st

/-- Model of `Engine.update_fov`: recompute the visible set from the player position and
extend the explored set; the model counts the recomputations. -/
def Engine.update_fov (st : TurnState) : TurnState :=
  { st with fovComputations := st.fovComputations + 1 }

/-- Model of `EventHandler.handle_action`: `None` advances nothing; otherwise perform
the action, and on `Impossible` log its message and return `False` (no enemy
turns, no field-of-view update); on success run the full enemy batch, update
the field of view and return `True`. -/
def EventHandler.handle_action (action : Option PerformFn)
    (ais : List PerformFn) (st : TurnState) : Bool × TurnState :=
  match action with
  | none => (false, st)
  | some p =>
    match p st with
    | (st2, some exc) => (false, { st2 with messages := st2.messages ++ [exc] })
    | (st2, none) =>
      (true, Engine.update_fov (Engine.handle_enemy_turns ais st2))

/- ## ConfusedEnemy AI, from src/components/ai.py -/

/-- The AI slot contents: the hostile strategy or the confusion wrapper around
a stored previous strategy and a remaining-turn counter. -/
inductive AIKind where
  | hostile
  | confused (previous : Option AIKind) (turns_remaining : Int)
deriving Repr

/-- The eight compass directions, in the order listed in
`ConfusedEnemy.perform`. -/
def compassDirections : List (Int × Int) :=
  [(-1, -1), (0, -1), (1, -1), (-1, 0), (1, 0), (-1, 1), (0, 1), (1, 1)]

/-- What one `ConfusedEnemy.perform` invocation does: either restore the stored
previous AI (logging the message), or decrement the counter (the wrapper object
mutates in place, so the slot keeps the wrapper with the new counter) and
perform a `BumpAction` in the chosen direction. -/
inductive ConfusedStep where
  | revert (newAi : Option AIKind) (message : String)
  | bump (newAi : Option AIKind) (direction : Int × Int)
deriving Repr

/-- Model of `ConfusedEnemy.perform`: if `turns_remaining <= 0` log and restore
`previous_ai`; else pick `random.choice` over the eight directions (modelled by
the oracle entry `n`, index `n % 8`), decrement the counter and perform a
`BumpAction` in that direction. -/
def ConfusedEnemy.perform (previous_ai : Option AIKind) (turns_remaining : Int)
    (n : Nat) (name : String) : ConfusedStep :=
  if turns_remaining ≤ 0 then
    ConfusedStep.revert previous_ai ("The " ++ name ++ " in no longer confused.")
  else
    ConfusedStep.bump
      (some (AIKind.confused previous_ai (turns_remaining - 1)))
      (compassDirections.getD (n % 8) (0, 0))

/- ## DropItem, from src/actions.py and src/components/inventory.py -/

/-- The state `DropItem.perform` touches: the acting actor (position, inventory
item list, equipment slots holding item identities), the map item positions,
and the message log. -/
structure DropWorld where
  actorX : Int
  actorY : Int
  invItems : List Nat
  weapon : Option Nat
  armor : Option Nat
  mapItems : List (Nat × Int × Int)
  messages : List String
deriving Repr, DecidableEq

/-- Model of `Inventory.drop`: `self.items.remove(item)` (removes the first occurrence;
Python raises `ValueError` when the item is absent), then
`item.place(self.parent.x, self.parent.y, self.gamemap)` (the item joins the
map entity set at the actor position), then log. -/
def Inventory.drop (w : DropWorld) (item : Nat) : Except String DropWorld :=
  if item ∈ w.invItems then
    Except.ok
      { w with invItems := w.invItems.erase item,
               mapItems := w.mapItems ++ [(item, w.actorX, w.actorY)],
               messages := w.messages ++ ["You dropped the item."] }
  else Except.error "ValueError: list.remove(x): x not in list"

/-- Model of `DropItem.perform`: the whole body is `self.entity.inventory.drop(self.item)`;
it never reads or writes the equipment component. -/
def DropItem.perform (w : DropWorld) (item : Nat) : Except String DropWorld :=
  Inventory.drop w item

/- ## Death and experience, from src/components/fighter.py -/

/-- An actor as the death bookkeeping sees it: liveness is the AI slot being
non-null (`Actor.is_alive`), plus name, fighter and Level component. -/
structure ActorSt where
  name : String
  alive : Bool
  fighter : Fighter
  level : LevelComp
deriving Repr, DecidableEq

/-- World for the death claims: the player, the other actors (by list index)
and the message log. -/
structure XpWorld where
  player : ActorSt
  npcs : List ActorSt
  messages : List String
deriving Repr, DecidableEq

/-- Model of `Fighter.die` for a non-player victim: rewrite the victim into a corpse
(AI slot nulled, name rewritten), log the defeat, and then
`self.engine.player.level.add_xp(self.parent.level.xp_given)` — the award
always goes to `engine.player`, whoever dealt the killing blow. -/
def Fighter.die (w : XpWorld) (victim : ActorSt) : XpWorld × ActorSt :=
  let corpse := { victim with alive := false, name := "remains of " ++ victim.name }
  let award := w.player.level.add_xp victim.level.xp_given
  ({ w with player := { w.player with level := award.1 },
            messages := w.messages ++ ["defeated " ++ victim.name] ++ award.2 },
   corpse)

/-- The `hp` property setter applied to the non-player actor at index `i`:
clamp-write the hp, and when the written value is 0 while the AI slot is
non-null, run `die()`. -/
def XpWorld.writeNpcHp (w : XpWorld) (i : Nat) (value : Int) : XpWorld :=
  match w.npcs[i]? with
  | none => w
  | some victim =>
    let f2 := victim.fighter.set_hp value
    let victim2 := { victim with fighter := f2 }
    if f2.hp = 0 ∧ victim.alive then
      let after := Fighter.die { w with npcs := w.npcs.set i victim2 } victim2
      { after.1 with npcs := after.1.npcs.set i after.2 }
    else { w with npcs := w.npcs.set i victim2 }

/- ## TakeStairs and floor regeneration, from src/actions.py, src/game_map.py
     and src/procgen.py -/

/-- Positional parameter names of `generate_dungeon` (src/procgen.py): the
function declares exactly these six parameters, no defaults, no `**kwargs`. -/
def generateDungeonParams : List String :=
  ["max_rooms", "room_min_size", "room_max_size", "map_width", "map_height",
   "engine"]

/-- Keyword arguments `GameWorld.generate_floor` passes to `generate_dungeon`
(src/game_map.py). -/
def generateFloorKwargs : List String :=
  ["max_rooms", "room_min_size", "room_max_size", "map_width", "map_height",
   "max_monsters_per_room", "max_items_per_room", "engine"]

/-- Python keyword binding: a call written with keyword arguments only binds
when every keyword names a declared parameter; otherwise the call raises
`TypeError: got an unexpected keyword argument` before the callee body runs. -/
def pyKeywordsBind (params kwargs : List String) : Bool :=
  kwargs.all (fun k => params.contains k)

/-- The engine state `TakeStairsAction.perform` observes. -/
structure StairsState where
  playerPos : Int × Int
  downstairs_location : Int × Int
  current_floor : Int
  messages : List String
deriving Repr, DecidableEq

/-- Outcome of a Python call that may raise: mutations made before the raise
persist, so every constructor carries the state. -/
inductive PyOutcome (α : Type) where
  | ok (s : α)
  | impossible (message : String) (s : α)
  | typeError (message : String) (s : α)
deriving Repr, DecidableEq

/-- Model of `GameWorld.generate_floor`: increment `current_floor`, then call
`generate_dungeon` with the keyword arguments above.  The binding check models
the Python call protocol; the `ok` branch (the dungeon build itself) is
unreachable because the binding fails, so it is not modelled further. -/
def GameWorld.generate_floor (st : StairsState) : PyOutcome StairsState :=
  let st1 := { st with current_floor := st.current_floor + 1 }
  if pyKeywordsBind generateDungeonParams generateFloorKwargs then
    PyOutcome.ok st1
  else
    PyOutcome.typeError
      "generate_dungeon() got an unexpected keyword argument" st1

/-- Model of `TakeStairsAction.perform`: when the actor stands on
`downstairs_location`, run `generate_floor` and then log the descend message;
otherwise raise `Impossible("There are no stairs here.")`. -/
def TakeStairsAction.perform (st : StairsState) : PyOutcome StairsState :=
  if st.playerPos = st.downstairs_location then
    match GameWorld.generate_floor st with
    | PyOutcome.ok st2 =>
      PyOutcome.ok
        { st2 with messages := st2.messages ++ ["You descend the staircase."] }
    | PyOutcome.impossible m s => PyOutcome.impossible m s
    | PyOutcome.typeError m s => PyOutcome.typeError m s
  else
    PyOutcome.impossible "There are no stairs here." st

/- ## Dungeon generation, from src/procgen.py -/

/-- Tile kinds the generator writes (src/tile_types.py): the map starts as
walls, room interiors and tunnels are carved into floor (the per-cell Gaussian
light-color jitter of `new_random_floor` is presentation only and untracked),
and the descent marker is the `down_stairs` tile. -/
inductive Tile where
  | wall
  | floorTile
  | downStairs
deriving Repr, DecidableEq

/-- Pull the next oracle value (0 once the prescribed values run out). -/
def oracleNext : List Nat → Nat × List Nat
  | [] => (0, [])
  | n :: rest => (n, rest)

/-- Model of `random.randint(a, b)`: one oracle entry, mapped into `[a, b]`
(meaningful when `a ≤ b`; Python raises on an empty range). -/
def pyRandint (a b : Nat) (o : List Nat) : Nat × List Nat :=
  let step := oracleNext o
  (a + step.1 % (b + 1 - a), step.2)

/-- Model of `RectangularRoom.__init__`: stores `x1 = x`, `y1 = y`, `x2 = x + width`,
`y2 = y + height`. -/
structure RectangularRoom where
  x1 : Nat
  y1 : Nat
  x2 : Nat
  y2 : Nat
deriving Repr, DecidableEq

/-- Model of `RectangularRoom(x, y, width, height)`. -/
def RectangularRoom.make (x y width height : Nat) : RectangularRoom :=
  { x1 := x, y1 := y, x2 := x + width, y2 := y + height }

/-- Model of `RectangularRoom.center`: `(int((x1 + x2) / 2), int((y1 + y2) / 2))`. -/
def RectangularRoom.center (r : RectangularRoom) : Nat × Nat :=
  ((r.x1 + r.x2) / 2, (r.y1 + r.y2) / 2)

/-- Membership in `RectangularRoom.inner`, the slices
`[x1 + 1, x2) × [y1 + 1, y2)`. -/
def RectangularRoom.inInterior (r : RectangularRoom) (p : Nat × Nat) : Bool :=
  r.x1 + 1 ≤ p.1 && p.1 < r.x2 && r.y1 + 1 ≤ p.2 && p.2 < r.y2

/-- Model of `RectangularRoom.intersects`: inclusive bounding-box overlap. -/
def RectangularRoom.intersects (a b : RectangularRoom) : Bool :=
  a.x1 ≤ b.x2 && a.x2 ≥ b.x1 && a.y1 ≤ b.y2 && a.y2 ≥ b.y1

/-- Inclusive integer range between two endpoints in either order. -/
def natRangeIncl (a b : Nat) : List Nat :=
  if a ≤ b then (List.range (b + 1 - a)).map (fun k => a + k)
  else (List.range (a + 1 - b)).map (fun k => b + k)

/-- Cells of `tcod.los.bresenham` between two points, endpoints included.
Every call `tunnle_between` makes is axis aligned (the corner shares a
coordinate with each endpoint), where the Bresenham line is exactly the
straight segment; the non-aligned case never arises and yields `[]`. -/
def bresenhamCells (p q : Nat × Nat) : List (Nat × Nat) :=
  if p.2 = q.2 then (natRangeIncl p.1 q.1).map (fun x => (x, p.2))
  else if p.1 = q.1 then (natRangeIncl p.2 q.2).map (fun y => (p.1, y))
  else []

/-- Model of `tunnle_between`: choose the corner `(x2, y1)` or `(x1, y2)` with one
`random.random() < 0.5` draw (oracle parity), then the two Bresenham
segments.  Returns the carved cells and the remaining oracle. -/
def tunnle_between (start stop : Nat × Nat) (o : List Nat) :
    List (Nat × Nat) × List Nat :=
  let draw := oracleNext o
  let corner :=
    if draw.1 % 2 = 0 then (stop.1, start.2) else (start.1, stop.2)
  (bresenhamCells start corner ++ bresenhamCells corner stop, draw.2)

/-- Model of `max_items_by_floor` (src/procgen.py). -/
def max_items_by_floor : List (Nat × Nat) := [(1, 1), (4, 2)]

/-- Model of `max_monsters_by_floor` (src/procgen.py). -/
def max_monsters_by_floor : List (Nat × Nat) := [(1, 2), (4, 3), (6, 5)]

/-- Model of `get_max_value_for_floor`: walk the table, stop at the first threshold
above the floor, keep the last value seen. -/
def get_max_value_for_floor (table : List (Nat × Nat)) (floor_number : Nat) : Nat :=
  (table.foldl
    (fun acc e =>
      if acc.1 then acc
      else if e.1 > floor_number then (true, acc.2)
      else (false, e.2))
    (false, 0)).2

/-- The map state the generator builds: dimensions, tiles (wall initialised,
updated pointwise exactly where the source writes), the entity positions
(player first; `GameMap.__init__` receives `entities=[player]`), and
`downstairs_location` (initialised `(0, 0)`). -/
structure DungeonMap where
  width : Nat
  height : Nat
  tiles : Nat × Nat → Tile
  entities : List (Nat × Nat)
  downstairs_location : Nat × Nat

/-- Write one tile. -/
def setTile (tiles : Nat × Nat → Tile) (p : Nat × Nat) (v : Tile) :
    Nat × Nat → Tile :=
  fun q => if q = p then v else tiles q

/-- Carve a room interior: the nested loops over `inner` write every cell of
`[x1 + 1, x2) × [y1 + 1, y2)` to a floor tile; modelled extensionally. -/
def carveInner (room : RectangularRoom) (tiles : Nat × Nat → Tile) :
    Nat × Nat → Tile :=
  fun p => if room.inInterior p then Tile.floorTile else tiles p

/-- Carve a list of tunnel cells to floor tiles. -/
def carveCells (cells : List (Nat × Nat)) (tiles : Nat × Nat → Tile) :
    Nat × Nat → Tile :=
  cells.foldl (fun t c => setTile t c Tile.floorTile) tiles

/-- Model of `player.place(*new_room.center, dungeon)`: the player is the head of the
entity list; its position is rewritten. -/
def placePlayer (entities : List (Nat × Nat)) (p : Nat × Nat) :
    List (Nat × Nat) :=
  match entities with
  | [] => [p]
  | _ :: rest => p :: rest

/-- The spawn loop of `place_entities` (`for entity in monsters + items`):
draw `(x, y)` inside the room interior; when no existing entity occupies that
exact cell, spawn there (append the position), else silently drop the spawn.
Which template was drawn never affects the map structure, so only the count is
tracked. -/
def spawnLoop : Nat → RectangularRoom → DungeonMap → List Nat →
    DungeonMap × List Nat
  | 0, _, d, o => (d, o)
  | Nat.succ k, room, d, o =>
    let drawX := pyRandint (room.x1 + 1) (room.x2 - 1) o
    let drawY := pyRandint (room.y1 + 1) (room.y2 - 1) drawX.2
    let cell := (drawX.1, drawY.1)
    let d2 :=
      if d.entities.any (fun e => e = cell) then d
      else { d with entities := d.entities ++ [cell] }
    spawnLoop k room d2 drawY.2

/-- Model of `place_entities`: draw the monster and item counts uniformly from
`[0, cap(floor)]`, draw the templates (`random.choices`, one oracle entry per
call; the chosen templates do not affect the map structure), then run the
spawn loop over the `monsters + items` list. -/
def place_entities (room : RectangularRoom) (d : DungeonMap)
    (floor_number : Nat) (o : List Nat) : DungeonMap × List Nat :=
  let drawM := pyRandint 0 (get_max_value_for_floor max_monsters_by_floor floor_number) o
  let drawI := pyRandint 0 (get_max_value_for_floor max_items_by_floor floor_number) drawM.2
  let choicesM := oracleNext drawI.2
  let choicesI := oracleNext choicesM.2
  spawnLoop (drawM.1 + drawI.1) room d choicesI.2

/-- The loop state of `generate_dungeon`: the dungeon under construction, the
accepted rooms, `center_of_last_room` and the oracle. -/
structure GenState where
  dungeon : DungeonMap
  rooms : List RectangularRoom
  center_of_last_room : Nat × Nat
  oracle : List Nat

/-- The acceptance body of the `generate_dungeon` loop: carve the interior,
place the player (first room) or carve an L-tunnel from the previous accepted
room and update `center_of_last_room` (later rooms), run `place_entities`,
write the stairs tile at `center_of_last_room`, set `downstairs_location` to
it, and append the room. -/
def genAccept (floor_number : Nat) (s : GenState)
    (new_room : RectangularRoom) (o : List Nat) : GenState :=
  let d1 := { s.dungeon with tiles := carveInner new_room s.dungeon.tiles }
  let afterConnect :=
    if s.rooms.isEmpty then
      (({ d1 with entities := placePlayer d1.entities new_room.center },
        s.center_of_last_room), o)
    else
      let tun := tunnle_between
        ((s.rooms.getLastD new_room).center) new_room.center o
      (({ d1 with tiles := carveCells tun.1 d1.tiles }, new_room.center),
       tun.2)
  let placed := place_entities new_room afterConnect.1.1 floor_number
    afterConnect.2
  let clr := afterConnect.1.2
  let d4 := { placed.1 with
    tiles := setTile placed.1.tiles clr Tile.downStairs,
    downstairs_location := clr }
  { dungeon := d4, rooms := s.rooms ++ [new_room],
    center_of_last_room := clr, oracle := placed.2 }

/-- One iteration of the `for r in range(max_rooms)` loop: draw a candidate
rectangle and `continue` when it intersects an accepted room, else run the
acceptance body. -/
def genStep (room_min_size room_max_size floor_number : Nat) (s : GenState) :
    GenState :=
  let drawW := pyRandint room_min_size room_max_size s.oracle
  let drawH := pyRandint room_min_size room_max_size drawW.2
  let drawX := pyRandint 0 (s.dungeon.width - drawW.1 - 1) drawH.2
  let drawY := pyRandint 0 (s.dungeon.height - drawH.1 - 1) drawX.2
  let new_room := RectangularRoom.make drawX.1 drawY.1 drawW.1 drawH.1
  if s.rooms.any (fun other => new_room.intersects other) then
    { s with oracle := drawY.2 }
  else
    genAccept floor_number s new_room drawY.2

/-- Run the generation loop for the remaining attempts. -/
def genLoop (room_min_size room_max_size floor_number : Nat) :
    Nat → GenState → GenState
  | 0, s => s
  | Nat.succ k, s =>
    genLoop room_min_size room_max_size floor_number k
      (genStep room_min_size room_max_size floor_number s)

/-- Model of `generate_dungeon`: fresh all-wall map with the player (at its current
position `(0, 0)` for a new game) as the only entity,
`center_of_last_room = (0, 0)`, then up to `max_rooms` attempts.  The final
loop state is returned so the accepted-room list can be inspected. -/
def generate_dungeon (max_rooms room_min_size room_max_size map_width
    map_height floor_number : Nat) (o : List Nat) : GenState :=
  genLoop room_min_size room_max_size floor_number max_rooms
    { dungeon :=
        { width := map_width, height := map_height,
          tiles := fun _ => Tile.wall, entities := [(0, 0)],
          downstairs_location := (0, 0) },
      rooms := [], center_of_last_room := (0, 0), oracle := o }

/-- Room placeholder for `List.getLastD` (never selected on the paths the
theorems inspect, since they establish the list is nonempty first). -/
def roomDefault : RectangularRoom := RectangularRoom.make 0 0 0 0

/-- Invariant maintained by the `generate_dungeon` loop.  Location part:
`center_of_last_room` stays `(0, 0)` until a second room is accepted and then
tracks the last accepted room's center; once any room is accepted,
`downstairs_location` equals `center_of_last_room`, and every accepted room
has sides spanning at least 2 cells.  Tile part: before the first acceptance
no cell carries a stairs tile; afterwards the stairs tiles are exactly the
cell `(0, 0)` (written while processing the first accepted room, and never
overwritten because all later carving and stairs writes touch cells with both
coordinates at least 1) and the current `downstairs_location`. -/
def GenInv (s : GenState) : Prop :=
  (s.rooms = [] → s.center_of_last_room = (0, 0) ∧
    ∀ p, s.dungeon.tiles p ≠ Tile.downStairs) ∧
  (s.rooms.length = 1 → s.center_of_last_room = (0, 0)) ∧
  (s.rooms ≠ [] → s.dungeon.downstairs_location = s.center_of_last_room) ∧
  (2 ≤ s.rooms.length →
    s.center_of_last_room = (s.rooms.getLastD roomDefault).center) ∧
  (∀ r ∈ s.rooms, r.x1 + 2 ≤ r.x2 ∧ r.y1 + 2 ≤ r.y2) ∧
  (s.rooms ≠ [] →
    s.dungeon.tiles (0, 0) = Tile.downStairs ∧
    s.dungeon.tiles s.dungeon.downstairs_location = Tile.downStairs ∧
    ∀ p, p ≠ (0, 0) → p ≠ s.dungeon.downstairs_location →
      s.dungeon.tiles p ≠ Tile.downStairs)

/- ## Concrete states used by witnesses and counterexamples -/

/-- The spec scenario attacker: `Fighter(hp=10, power=5, defense=0)`,
no equipment bonuses. -/
def meleeAtkExample : CombatActor :=
  { name := "Player",
    fighter := { max_hp := 10, hp := 10, base_defense := 0, base_power := 5 },
    equipment := some { weapon := none, armor := none } }

/-- The spec scenario defender: `Fighter(hp=10, power=0, defense=2)`. -/
def meleeDefExample : CombatActor :=
  { name := "Orc",
    fighter := { max_hp := 10, hp := 10, base_defense := 2, base_power := 0 },
    equipment := some { weapon := none, armor := none } }

/-- A world where item 7 is carried and currently equipped in the weapon
slot. -/
def dropWorldExample : DropWorld :=
  { actorX := 3, actorY := 4, invItems := [7], weapon := some 7, armor := none,
    mapItems := [], messages := [] }

/-- The player of entity_factories.py: `Level(level_up_base=200)`
(`level_up_factor` keeps its default 150). -/
def xpPlayerExample : ActorSt :=
  { name := "Player", alive := true,
    fighter := { max_hp := 30, hp := 30, base_defense := 1, base_power := 2 },
    level := { current_level := 1, current_xp := 0, level_up_base := 200,
               level_up_factor := 150, xp_given := 0 } }

/-- The orc of entity_factories.py (`xp_given = 35`), cast as the killer. -/
def xpKillerOrc : ActorSt :=
  { name := "Orc", alive := true,
    fighter := { max_hp := 10, hp := 10, base_defense := 0, base_power := 3 },
    level := { current_level := 1, current_xp := 0, level_up_base := 0,
               level_up_factor := 150, xp_given := 35 } }

/-- The troll of entity_factories.py (`xp_given = 100`), down to 1 hp, cast as
the victim. -/
def xpVictimTroll : ActorSt :=
  { name := "Troll", alive := true,
    fighter := { max_hp := 16, hp := 1, base_defense := 1, base_power := 4 },
    level := { current_level := 1, current_xp := 0, level_up_base := 0,
               level_up_factor := 150, xp_given := 100 } }

/-- A confused orc (npc 0) stands next to a wounded troll (npc 1); the orc is
about to deliver the killing blow. -/
def xpWorldExample : XpWorld :=
  { player := xpPlayerExample, npcs := [xpKillerOrc, xpVictimTroll],
    messages := [] }

/-- Oracle for the one-room counterexample run: room width 6, height 6,
position draws 5 and 5 (entity placement draws default to 0, giving zero
monsters and items on floor 0 anyway). -/
def genCexOracle : List Nat := [0, 0, 5, 5]

/-- Counterexample floor: `generate_dungeon` with a single room attempt on a
20 by 20 map, sizes fixed at 6, depth 0. -/
def genCexRun : GenState := generate_dungeon 1 6 6 20 20 0 genCexOracle

/-- Oracle for a two-room run on a 30 by 30 map: first room at (2, 2), second
at (20, 20), tunnel corner draw and entity draws 0. -/
def genWitnessOracle : List Nat := [0, 0, 2, 2, 0, 0, 0, 0, 0, 0, 20, 20, 0]

/-- Witness floor: two accepted rooms. -/
def genWitnessRun : GenState := generate_dungeon 2 6 6 30 30 0 genWitnessOracle

/-- A state standing on the stairs. -/
def stairsStateOn : StairsState :=
  { playerPos := (4, 9), downstairs_location := (4, 9), current_floor := 1,
    messages := [] }

/-- A state away from the stairs. -/
def stairsStateOff : StairsState :=
  { playerPos := (3, 9), downstairs_location := (4, 9), current_floor := 1,
    messages := [] }

/-- A player state about to level up (such states are reached with banked
xp above the threshold). -/
def levelUpStateExample : PlayerState :=
  { actor := { name := "Player",
               fighter := { max_hp := 30, hp := 22, base_defense := 1,
                            base_power := 2 },
               equipment := some { weapon := none, armor := none } },
    level := { current_level := 1, current_xp := 380, level_up_base := 200,
               level_up_factor := 150, xp_given := 0 },
    messages := [] }

/-- A modelled action that raises `Impossible("That way is blocked.")` without
touching the state. -/
def actionBlockedExample : PerformFn := fun s => (s, some "That way is blocked.")

/-- A modelled action that succeeds without touching the state (a wait). -/
def actionWaitExample : PerformFn := fun s => (s, none)

/-- One enemy AI that records that it acted. -/
def enemyAiExample : PerformFn :=
  fun s => ({ s with enemyActed := s.enemyActed ++ ["orc"] }, none)

/-- An empty turn state. -/
def turnStateExample : TurnState :=
  { messages := [], enemyActed := [], fovComputations := 0 }

/-- The player fighter of entity_factories.py:
`Fighter(hp=30, base_defense=1, base_power=2)`. -/
def playerFighterExample : Fighter :=
  { max_hp := 30, hp := 30, base_defense := 1, base_power := 2 }

/-- A fighter at full health (10/10). -/
def healFullExample : Fighter :=
  { max_hp := 10, hp := 10, base_defense := 0, base_power := 0 }

/-- A fighter at 8 of 10 hp. -/
def healWoundedExample : Fighter :=
  { max_hp := 10, hp := 8, base_defense := 0, base_power := 0 }

/- ## Helper lemmas -/

/-- The clamping write always lands in `[0, max_hp]` when `max_hp` is
nonnegative, and never touches `max_hp`. -/
theorem set_hp_bounds (f : Fighter) (v : Int) (h : 0 ≤ f.max_hp) :
    0 ≤ (f.set_hp v).hp ∧ (f.set_hp v).hp ≤ (f.set_hp v).max_hp := by
  unfold Fighter.set_hp
  refine ⟨le_max_left 0 _, ?_⟩
  exact max_le h (min_le_right v f.max_hp)

theorem set_hp_max_hp (f : Fighter) (v : Int) :
    (f.set_hp v).max_hp = f.max_hp := rfl

/- ## C3: hp stays clamped to [0, max_hp] under every mutation -/

/-- C3: for every `Fighter` with a nonnegative `max_hp`, each of the hp
mutations — a direct property write, `take_damage`, `heal`, and the max-hp
increase applied on level-up (with its nonnegative amount) — leaves
`0 <= hp <= max_hp`: every write to hp goes through the clamping setter, and
the one path that skips the setter (`heal` at full health) returns hp equal to
`max_hp`. -/
theorem fighter_hp_clamped (f : Fighter) (value dmg healAmt amount : Int)
    (hmax : 0 ≤ f.max_hp) (hamt : 0 ≤ amount) :
    (0 ≤ (f.set_hp value).hp ∧ (f.set_hp value).hp ≤ (f.set_hp value).max_hp) ∧
    (0 ≤ (f.take_damage dmg).hp ∧
      (f.take_damage dmg).hp ≤ (f.take_damage dmg).max_hp) ∧
    (0 ≤ (f.heal healAmt).1.hp ∧
      (f.heal healAmt).1.hp ≤ (f.heal healAmt).1.max_hp) ∧
    (0 ≤ (f.increase_max_hp_mutation amount).hp ∧
      (f.increase_max_hp_mutation amount).hp ≤
        (f.increase_max_hp_mutation amount).max_hp) := by
  refine ⟨set_hp_bounds f value hmax, set_hp_bounds f _ hmax, ?_, ?_⟩
  · unfold Fighter.heal
    by_cases hfull : f.hp = f.max_hp
    · simp only [hfull, if_pos rfl]
      exact ⟨hfull ▸ hmax, le_of_eq hfull⟩
    · simp only [if_neg hfull]
      exact set_hp_bounds f _ hmax
  · unfold Fighter.increase_max_hp_mutation
    exact set_hp_bounds _ _ (by simpa using add_nonneg hmax hamt)

/-- C3 witness: the player fighter (30/30) with a direct write of -5, 12
damage, a heal of 4 and the level-up increase of 20 all keep hp within
bounds. -/
theorem fighter_hp_clamped_witness :
    (0 ≤ (playerFighterExample.set_hp (-5)).hp ∧
      (playerFighterExample.set_hp (-5)).hp ≤
        (playerFighterExample.set_hp (-5)).max_hp) ∧
    (0 ≤ (playerFighterExample.take_damage 12).hp ∧
      (playerFighterExample.take_damage 12).hp ≤
        (playerFighterExample.take_damage 12).max_hp) ∧
    (0 ≤ (playerFighterExample.heal 4).1.hp ∧
      (playerFighterExample.heal 4).1.hp ≤
        (playerFighterExample.heal 4).1.max_hp) ∧
    (0 ≤ (playerFighterExample.increase_max_hp_mutation 20).hp ∧
      (playerFighterExample.increase_max_hp_mutation 20).hp ≤
        (playerFighterExample.increase_max_hp_mutation 20).max_hp) := by
  have h := fighter_hp_clamped playerFighterExample (-5) 12 4 20
    (by decide) (by decide)
  exact ⟨h.1, h.2.1, h.2.2.1, h.2.2.2⟩

/- ## C5: melee damage rule -/

/-- C5: a melee attack against an occupied cell always succeeds (never raises
`Impossible`): the defender loses `max(0, power - defense)` hp (through the
clamping setter, so hp cannot go below 0), and with a zero-or-negative
computed damage the defender is untouched. -/
theorem melee_damage_rule (a t : CombatActor)
    (h0 : 0 ≤ t.fighter.hp) (h1 : t.fighter.hp ≤ t.fighter.max_hp) :
    ∃ t2 msg, MeleeAction.perform a (some t) = Except.ok (t2, msg) ∧
      t2.fighter.hp = max 0 (t.fighter.hp - max 0 (a.power - t.defense)) ∧
      t2.fighter.max_hp = t.fighter.max_hp ∧
      (a.power - t.defense ≤ 0 → t2 = t) := by
  unfold MeleeAction.perform
  dsimp only
  by_cases hd : a.power - t.defense > 0
  · rw [if_pos hd]
    refine ⟨_, _, rfl, ?_, rfl, fun hle => absurd hd (not_lt.mpr hle)⟩
    show (t.fighter.set_hp (t.fighter.hp - (a.power - t.defense))).hp = _
    unfold Fighter.set_hp
    dsimp only
    omega
  · rw [if_neg hd]
    refine ⟨t, _, rfl, ?_, rfl, fun _ => rfl⟩
    omega

/-- C5 witness, the spec scenario: `Fighter(hp=10, power=5, defense=0)`
striking `Fighter(hp=10, power=0, defense=2)` succeeds and leaves the defender
at hp 7. -/
theorem melee_damage_scenario_witness :
    ∃ t2 msg, MeleeAction.perform meleeAtkExample (some meleeDefExample) =
      Except.ok (t2, msg) ∧ t2.fighter.hp = 7 := by
  obtain ⟨t2, msg, hok, hhp, _, _⟩ :=
    melee_damage_rule meleeAtkExample meleeDefExample (by decide) (by decide)
  refine ⟨t2, msg, hok, ?_⟩
  rw [hhp]; decide

/- ## C10: healing consumable -/

/-- C10: activating a Healing consumable (the game ships only
`HealingConsumable(amount=4)`, so the amount is positive) never raises hp
above `max_hp`; at full health it raises `Impossible`, leaves hp unchanged and
the item unconsumed; otherwise hp rises by exactly
`min(amount, max_hp - hp)`, the item is consumed and the recovery is
logged. -/
theorem healing_consumable_rule (f : Fighter) (amount : Int) (itemId : Nat)
    (inv : List Nat) (h0 : 0 ≤ f.hp) (h1 : f.hp ≤ f.max_hp)
    (hamt : 1 ≤ amount) :
    (f.hp = f.max_hp →
      HealingConsumable.activate amount itemId inv f =
        ActivateOutcome.impossible "Your health is already full." f inv) ∧
    (f.hp < f.max_hp →
      ∃ f2 msg, HealingConsumable.activate amount itemId inv f =
          ActivateOutcome.ok f2 (inv.erase itemId) msg ∧
        f2.hp = f.hp + min amount (f.max_hp - f.hp) ∧
        f2.hp ≤ f2.max_hp ∧ f2.max_hp = f.max_hp) := by
  constructor
  · intro hfull
    simp only [HealingConsumable.activate, Fighter.heal, if_pos hfull]
    norm_num
  · intro hlt
    have hne : f.hp ≠ f.max_hp := ne_of_lt hlt
    simp only [HealingConsumable.activate, Fighter.heal, if_neg hne]
    by_cases hcap : f.hp + amount > f.max_hp
    · rw [if_pos hcap]
      rw [if_pos (by omega : f.max_hp - f.hp > 0)]
      refine ⟨_, _, rfl, ?_, ?_, rfl⟩ <;>
        (unfold Fighter.set_hp; dsimp only; omega)
    · rw [if_neg hcap]
      rw [if_pos (by omega : f.hp + amount - f.hp > 0)]
      refine ⟨_, _, rfl, ?_, ?_, rfl⟩ <;>
        (unfold Fighter.set_hp; dsimp only; omega)

/-- C10 witness: a health potion (amount 4, item 2) on a full 10/10 fighter
fails and leaves the inventory alone; on an 8/10 fighter it consumes the item
and stops exactly at 10 hp. -/
theorem healing_consumable_rule_witness :
    HealingConsumable.activate 4 2 [2] healFullExample =
      ActivateOutcome.impossible "Your health is already full."
        healFullExample [2] ∧
    ∃ f2 msg, HealingConsumable.activate 4 2 [2] healWoundedExample =
        ActivateOutcome.ok f2 [] msg ∧ f2.hp = 10 := by
  constructor
  · exact (healing_consumable_rule healFullExample 4 2 [2]
      (by decide) (by decide) (by decide)).1 (by decide)
  · obtain ⟨f2, msg, hok, hhp, _, _⟩ :=
      (healing_consumable_rule healWoundedExample 4 2 [2]
        (by decide) (by decide) (by decide)).2 (by decide)
    refine ⟨f2, msg, ?_, by rw [hhp]; decide⟩
    simpa using hok

/- ## C4: Impossible consumes no turn, success consumes one -/

/-- C4: for a player-submitted action, when `perform` raises `Impossible` the
dispatcher logs the message and returns `False` — the enemy batch is not run
and the field of view is not recomputed (their observables are exactly those
the action itself left); when `perform` completes, the dispatcher runs the
full enemy batch, recomputes the field of view and returns `True`. -/
theorem handle_action_turn_rule (p : PerformFn) (ais : List PerformFn)
    (st : TurnState) :
    (∀ st2 exc, p st = (st2, some exc) →
      EventHandler.handle_action (some p) ais st =
        (false, { st2 with messages := st2.messages ++ [exc] }) ∧
      (EventHandler.handle_action (some p) ais st).2.enemyActed =
        st2.enemyActed ∧
      (EventHandler.handle_action (some p) ais st).2.fovComputations =
        st2.fovComputations) ∧
    (∀ st2, p st = (st2, none) →
      EventHandler.handle_action (some p) ais st =
        (true, Engine.update_fov (Engine.handle_enemy_turns ais st2)) ∧
      (EventHandler.handle_action (some p) ais st).2.fovComputations =
        (Engine.handle_enemy_turns ais st2).fovComputations + 1) := by
  constructor
  · intro st2 exc hp
    have hmain : EventHandler.handle_action (some p) ais st =
        (false, { st2 with messages := st2.messages ++ [exc] }) := by
      unfold EventHandler.handle_action
      simp only [hp]
    exact ⟨hmain, by rw [hmain], by rw [hmain]⟩
  · intro st2 hp
    have hmain : EventHandler.handle_action (some p) ais st =
        (true, Engine.update_fov (Engine.handle_enemy_turns ais st2)) := by
      unfold EventHandler.handle_action
      simp only [hp]
    exact ⟨hmain, by rw [hmain]; rfl⟩

/-- C4 witness: a blocked move is logged and advances nothing; a wait runs the
one-orc enemy batch and bumps the field-of-view counter. -/
theorem handle_action_turn_rule_witness :
    EventHandler.handle_action (some actionBlockedExample) [enemyAiExample]
      turnStateExample =
      (false, { messages := ["That way is blocked."], enemyActed := [],
                fovComputations := 0 }) ∧
    EventHandler.handle_action (some actionWaitExample) [enemyAiExample]
      turnStateExample =
      (true, { messages := [], enemyActed := ["orc"],
               fovComputations := 1 }) := by
  constructor
  · have h := ((handle_action_turn_rule actionBlockedExample [enemyAiExample]
      turnStateExample).1 turnStateExample "That way is blocked." rfl).1
    rw [h]; rfl
  · have h := ((handle_action_turn_rule actionWaitExample [enemyAiExample]
      turnStateExample).2 turnStateExample rfl).1
    rw [h]; rfl

/- ## C6: confused AI step -/

/-- C6: a `ConfusedEnemy.perform` invocation with a positive counter keeps the
confusion wrapper in the AI slot with the counter decremented by one and
performs a Bump in the direction drawn by `random.choice` over the eight
compass directions (index `n mod 8` of the oracle draw; the list has the eight
distinct directions, so a uniform draw gives a uniform direction); the slot is
restored to the stored previous strategy exactly on the invocation that sees
the counter at 0 or below, never while it is positive. -/
theorem confused_ai_step (previous_ai : Option AIKind) (turns_remaining : Int)
    (n : Nat) (name : String) :
    (0 < turns_remaining →
      ConfusedEnemy.perform previous_ai turns_remaining n name =
        ConfusedStep.bump
          (some (AIKind.confused previous_ai (turns_remaining - 1)))
          (compassDirections.getD (n % 8) (0, 0)) ∧
      compassDirections.getD (n % 8) (0, 0) ∈ compassDirections) ∧
    (turns_remaining ≤ 0 →
      ConfusedEnemy.perform previous_ai turns_remaining n name =
        ConfusedStep.revert previous_ai
          ("The " ++ name ++ " in no longer confused.")) ∧
    compassDirections.length = 8 ∧ compassDirections.Nodup := by
  refine ⟨?_, ?_, by decide, by decide⟩
  · intro hpos
    refine ⟨?_, ?_⟩
    · unfold ConfusedEnemy.perform
      rw [if_neg (by omega)]
    · have h8 : n % 8 = 0 ∨ n % 8 = 1 ∨ n % 8 = 2 ∨ n % 8 = 3 ∨ n % 8 = 4 ∨
          n % 8 = 5 ∨ n % 8 = 6 ∨ n % 8 = 7 := by omega
      rcases h8 with h | h | h | h | h | h | h | h <;> rw [h] <;> decide
  · intro hle
    unfold ConfusedEnemy.perform
    rw [if_pos hle]

/-- C6 witness: with 3 turns left and oracle draw 5 the orc bumps southwest
(direction index 5) and keeps a wrapper with 2 turns; with the counter at 0
the slot reverts to the stored hostile AI. -/
theorem confused_ai_step_witness :
    ConfusedEnemy.perform (some AIKind.hostile) 3 5 "Orc" =
      ConfusedStep.bump
        (some (AIKind.confused (some AIKind.hostile) 2)) (-1, 1) ∧
    ConfusedEnemy.perform (some AIKind.hostile) 0 9 "Orc" =
      ConfusedStep.revert (some AIKind.hostile)
        "The Orc in no longer confused." := by
  constructor
  · have h := ((confused_ai_step (some AIKind.hostile) 3 5 "Orc").1
      (by decide)).1
    rw [h]
    norm_num [compassDirections]
  · exact (confused_ai_step (some AIKind.hostile) 0 9 "Orc").2.1 (by decide)

/- ## C7: the power and defense level-up choices crash -/

/-- C7 (code evaluation at the failing input): choosing Strength or Agility at
level-up calls `Level.increase_power` or `Level.increase_defense`, whose first
statement assigns to the getter-only properties `Fighter.power` and
`Fighter.defense`, so every such call raises `AttributeError` before any stat
changes or xp is consumed — for every player state and any amount.  Choosing
Constitution (`increase_max_hp`) does perform the claimed update: bonus
applied and `increase_level` run (xp reduced by the threshold, level plus
one). -/
theorem levelup_power_choice_raises (st : PlayerState) (amount : Int) :
    Level.increase_power amount st =
      Except.error
        "AttributeError: property power of Fighter object has no setter" ∧
    Level.increase_defense amount st =
      Except.error
        "AttributeError: property defense of Fighter object has no setter" ∧
    ∃ st2, Level.increase_max_hp 20 st = Except.ok st2 ∧
      st2.level = st.level.increase_level ∧
      st2.actor.fighter.max_hp = st.actor.fighter.max_hp + 20 := by
  refine ⟨rfl, rfl, ?_⟩
  exact ⟨_, rfl, rfl, rfl⟩

/- ## C1: TakeStairs -/

/-- C1 (code evaluation at the failing input): `TakeStairsAction.perform` off
the descent point raises `Impossible("There are no stairs here.")` with the
state untouched, as claimed; but on the descent point the triggered
`generate_floor` increments `current_floor` and then calls `generate_dungeon`
with the keyword arguments `max_monsters_per_room` and `max_items_per_room`,
which `generate_dungeon` does not declare, so the call raises `TypeError` —
no new map is generated or installed, the player is not relocated, and the
descend message is never logged. -/
theorem takestairs_regeneration_crashes (st : StairsState) :
    (st.playerPos ≠ st.downstairs_location →
      TakeStairsAction.perform st =
        PyOutcome.impossible "There are no stairs here." st) ∧
    (st.playerPos = st.downstairs_location →
      TakeStairsAction.perform st =
        PyOutcome.typeError
          "generate_dungeon() got an unexpected keyword argument"
          { st with current_floor := st.current_floor + 1 }) ∧
    pyKeywordsBind generateDungeonParams generateFloorKwargs = false := by
  refine ⟨?_, ?_, by decide⟩
  · intro hne
    unfold TakeStairsAction.perform
    rw [if_neg hne]
  · intro heq
    unfold TakeStairsAction.perform GameWorld.generate_floor
    rw [if_pos heq]
    rfl

/-- C1 witness: on the stairs the action raises `TypeError` with the depth
counter already incremented; one step away it raises `Impossible`. -/
theorem takestairs_regeneration_crashes_witness :
    TakeStairsAction.perform stairsStateOn =
      PyOutcome.typeError
        "generate_dungeon() got an unexpected keyword argument"
        { stairsStateOn with current_floor := 2 } ∧
    TakeStairsAction.perform stairsStateOff =
      PyOutcome.impossible "There are no stairs here." stairsStateOff := by
  constructor
  · have h := (takestairs_regeneration_crashes stairsStateOn).2.1 (by decide)
    rw [h]; decide
  · exact (takestairs_regeneration_crashes stairsStateOff).1 (by decide)

/- ## C8: DropItem does not unequip -/

/-- C8 counterexample: in `dropWorldExample` item 7 is carried and equipped in
the weapon slot; `DropItem.perform` succeeds and moves it onto the grid at the
actor position (3, 4), but the weapon slot still references item 7 — the drop
performs no unequip, contrary to the claim. -/
theorem dropitem_leaves_item_equipped_cex :
    DropItem.perform dropWorldExample 7 =
      Except.ok
        { actorX := 3, actorY := 4, invItems := [], weapon := some 7,
          armor := none, mapItems := [(7, 3, 4)],
          messages := ["You dropped the item."] } ∧
    dropWorldExample.weapon = some 7 := by
  constructor <;> rfl

/-- C8 amended: dropping a carried item always succeeds, removes it from the
inventory and places it on the Grid at the actor's current position — but the
equipment slots are left untouched, so an equipped item stays equipped (and
keeps granting its bonus) after being dropped. -/
theorem dropitem_amended (w : DropWorld) (item : Nat)
    (hmem : item ∈ w.invItems) :
    ∃ w2, DropItem.perform w item = Except.ok w2 ∧
      w2.invItems = w.invItems.erase item ∧
      w2.mapItems = w.mapItems ++ [(item, w.actorX, w.actorY)] ∧
      w2.weapon = w.weapon ∧ w2.armor = w.armor ∧
      w2.actorX = w.actorX ∧ w2.actorY = w.actorY := by
  unfold DropItem.perform Inventory.drop
  rw [if_pos hmem]
  exact ⟨_, rfl, rfl, rfl, rfl, rfl, rfl, rfl⟩

/-- C8 amended witness: dropping the equipped item 7 at (3, 4). -/
theorem dropitem_amended_witness :
    ∃ w2, DropItem.perform dropWorldExample 7 = Except.ok w2 ∧
      w2.invItems = [] ∧ w2.mapItems = [(7, 3, 4)] ∧ w2.weapon = some 7 := by
  obtain ⟨w2, hok, hinv, hmap, hweap, _, _, _⟩ :=
    dropitem_amended dropWorldExample 7 (by decide)
  exact ⟨w2, hok, by rw [hinv]; rfl, by rw [hmap]; rfl, by rw [hweap]; rfl⟩

/- ## C9: death reward goes to the player, not the killer -/

/-- C9 counterexample: in `xpWorldExample` the confused orc (npc 0) delivers
the blow that writes the troll's hp (npc 1, 1 hp, `xp_given = 100`) to 0.  The
troll dies, yet the orc's Level is unchanged (`current_xp` still 0) while the
player — who did nothing — gains the 100 xp, contradicting the claim that the
reward is granted to the killer. -/
theorem death_xp_not_to_killer_cex :
    (XpWorld.writeNpcHp xpWorldExample 1 (-1)).player.level.current_xp = 100 ∧
    ((XpWorld.writeNpcHp xpWorldExample 1 (-1)).npcs.getD 0
        xpPlayerExample).level.current_xp = 0 ∧
    ((XpWorld.writeNpcHp xpWorldExample 1 (-1)).npcs.getD 1
        xpPlayerExample).alive = false ∧
    xpVictimTroll.level.xp_given = 100 := by
  refine ⟨?_, ?_, ?_, rfl⟩ <;> rfl

/-- C9 amended: whenever a non-player actor with a non-null AI slot has its hp
written to 0, the dead actor's `xp_given` is granted to `engine.player`
(through `Level.add_xp`), whoever dealt the blow: no npc — in particular not
the killer — has its Level component changed by the death. -/
theorem death_xp_always_to_player (w : XpWorld) (i : Nat) (value : Int)
    (hi : i < w.npcs.length)
    (halive : (w.npcs.get ⟨i, hi⟩).alive = true)
    (hdies : max 0 (min value (w.npcs.get ⟨i, hi⟩).fighter.max_hp) = 0) :
    (XpWorld.writeNpcHp w i value).player.level =
      (w.player.level.add_xp (w.npcs.get ⟨i, hi⟩).level.xp_given).1 ∧
    ∀ j, ((XpWorld.writeNpcHp w i value).npcs.getD j xpPlayerExample).level =
      (w.npcs.getD j xpPlayerExample).level := by
  have hget : w.npcs[i]? = some (w.npcs.get ⟨i, hi⟩) := by
    rw [List.getElem?_eq_getElem hi]
    rfl
  unfold XpWorld.writeNpcHp
  rw [hget]
  dsimp only
  have hhp : ((w.npcs.get ⟨i, hi⟩).fighter.set_hp value).hp = 0 := by
    unfold Fighter.set_hp
    dsimp only
    omega
  rw [if_pos ⟨hhp, halive⟩]
  unfold Fighter.die
  dsimp only
  refine ⟨rfl, ?_⟩
  intro j
  rw [List.set_set]
  simp only [List.getD_eq_getElem?_getD]
  by_cases hj : j = i
  · subst hj
    rw [List.getElem?_set_eq_of_lt _ (by simpa using hi),
      List.getElem?_eq_getElem hi]
    rfl
  · rw [List.getElem?_set_ne (fun h => hj h.symm)]

/-- C9 amended witness: the orc kills the troll; the player's Level gains the
100 xp and the orc's Level (npc 0) is untouched. -/
theorem death_xp_always_to_player_witness :
    (XpWorld.writeNpcHp xpWorldExample 1 (-1)).player.level =
      (xpWorldExample.player.level.add_xp 100).1 ∧
    ((XpWorld.writeNpcHp xpWorldExample 1 (-1)).npcs.getD 0
        xpPlayerExample).level =
      (xpWorldExample.npcs.getD 0 xpPlayerExample).level := by
  have h := death_xp_always_to_player xpWorldExample 1 (-1)
    (by decide) (by decide) (by decide)
  exact ⟨by rw [h.1]; rfl, h.2 0⟩

/- ## C2: the descent point and the stairs tiles -/

/-- C2 counterexample: two concrete runs of `generate_dungeon` refute the
claim.  The one-room run (20 by 20 map, sizes fixed at 6, oracle
`[0, 0, 5, 5]`) leaves `downstairs_location` at `(0, 0)`, not at the accepted
room's center (8, 8) and outside every accepted room's interior.  The
two-room run (`genWitnessRun`, 30 by 30 map) has its descent point correctly
at the final room's center (23, 23), but the cell `(0, 0)` — not the descent
point — still carries the `down_stairs` tile written while the first accepted
room was processed, so a cell other than the descent point carries a stairs
tile. -/
theorem generate_dungeon_descent_cex :
    genCexRun.rooms = [{ x1 := 5, y1 := 5, x2 := 11, y2 := 11 }] ∧
    genCexRun.dungeon.downstairs_location = (0, 0) ∧
    (genCexRun.rooms.getLastD roomDefault).center = (8, 8) ∧
    genCexRun.dungeon.downstairs_location ≠
      (genCexRun.rooms.getLastD roomDefault).center ∧
    genCexRun.rooms.all
      (fun r => !(r.inInterior genCexRun.dungeon.downstairs_location)) = true ∧
    genWitnessRun.rooms.length = 2 ∧
    genWitnessRun.dungeon.downstairs_location = (23, 23) ∧
    genWitnessRun.dungeon.tiles (0, 0) = Tile.downStairs ∧
    ((0, 0) : Nat × Nat) ≠ genWitnessRun.dungeon.downstairs_location := by
  refine ⟨by decide, by decide, by decide, by decide, by decide, by decide,
    by decide, by decide, by decide⟩

/-- The center of a room whose sides span at least 2 cells lies in the room's
interior. -/
theorem center_inInterior (r : RectangularRoom) (hx : r.x1 + 2 ≤ r.x2)
    (hy : r.y1 + 2 ≤ r.y2) : r.inInterior r.center = true := by
  unfold RectangularRoom.inInterior RectangularRoom.center
  dsimp only
  simp only [Bool.and_eq_true, decide_eq_true_eq]
  omega

/-- The center of a room whose sides span at least 2 cells has both
coordinates at least 1. -/
theorem center_coords_ge_one (r : RectangularRoom) (hx : r.x1 + 2 ≤ r.x2)
    (hy : r.y1 + 2 ≤ r.y2) : 1 ≤ r.center.1 ∧ 1 ≤ r.center.2 := by
  unfold RectangularRoom.center
  dsimp only
  omega

/-- Interior cells have both coordinates at least 1 (the interior slices start
at `x1 + 1` and `y1 + 1`). -/
theorem inInterior_coords (r : RectangularRoom) (p : Nat × Nat)
    (h : r.inInterior p = true) : 1 ≤ p.1 ∧ 1 ≤ p.2 := by
  unfold RectangularRoom.inInterior at h
  simp only [Bool.and_eq_true, decide_eq_true_eq] at h
  omega

/-- A `pyRandint` draw is at least its lower bound. -/
theorem pyRandint_ge (a b : Nat) (o : List Nat) : a ≤ (pyRandint a b o).1 := by
  unfold pyRandint
  dsimp only
  exact Nat.le_add_right a _

/-- With any fallback, `getLastD` of a nonempty list is a member. -/
theorem getLastD_mem {α : Type} (l : List α) (d : α) (h : l ≠ []) :
    l.getLastD d ∈ l := by
  induction l generalizing d with
  | nil => exact absurd rfl h
  | cons a t ih =>
    rw [List.getLastD_cons]
    cases t with
    | nil => simp [List.getLastD]
    | cons b t2 => exact List.mem_cons_of_mem a (ih a (by simp))

/-- The fallback of `getLastD` is irrelevant on a nonempty list. -/
theorem getLastD_congr {α : Type} (l : List α) (d1 d2 : α) (h : l ≠ []) :
    l.getLastD d1 = l.getLastD d2 := by
  cases l with
  | nil => exact absurd rfl h
  | cons a t => rw [List.getLastD_cons, List.getLastD_cons]

/-- The lower endpoint belongs to the inclusive range. -/
theorem natRangeIncl_left_mem (a b : Nat) : a ∈ natRangeIncl a b := by
  unfold natRangeIncl
  by_cases h : a ≤ b
  · rw [if_pos h]
    exact List.mem_map.mpr ⟨0, by simp [List.mem_range]; omega, by omega⟩
  · rw [if_neg h]
    exact List.mem_map.mpr ⟨a - b, by simp [List.mem_range]; omega, by omega⟩

/-- Every element of the inclusive range is at least the smaller endpoint. -/
theorem natRangeIncl_ge (a b x : Nat) (hx : x ∈ natRangeIncl a b) :
    min a b ≤ x := by
  unfold natRangeIncl at hx
  by_cases h : a ≤ b
  · rw [if_pos h] at hx
    obtain ⟨k, _, hk⟩ := List.mem_map.mp hx
    omega
  · rw [if_neg h] at hx
    obtain ⟨k, _, hk⟩ := List.mem_map.mp hx
    omega

/-- Cells of an axis-aligned Bresenham segment between points with both
coordinates at least 1 have both coordinates at least 1. -/
theorem bresenhamCells_coords (p q c : Nat × Nat) (hp1 : 1 ≤ p.1)
    (hp2 : 1 ≤ p.2) (hq1 : 1 ≤ q.1) (hq2 : 1 ≤ q.2)
    (hc : c ∈ bresenhamCells p q) : 1 ≤ c.1 ∧ 1 ≤ c.2 := by
  unfold bresenhamCells at hc
  by_cases h1 : p.2 = q.2
  · rw [if_pos h1] at hc
    obtain ⟨x, hx, hxc⟩ := List.mem_map.mp hc
    have hge := natRangeIncl_ge _ _ _ hx
    rw [← hxc]
    exact ⟨by dsimp only; omega, by dsimp only; omega⟩
  · rw [if_neg h1] at hc
    by_cases h2 : p.1 = q.1
    · rw [if_pos h2] at hc
      obtain ⟨y, hy, hyc⟩ := List.mem_map.mp hc
      have hge := natRangeIncl_ge _ _ _ hy
      rw [← hyc]
      exact ⟨by dsimp only; omega, by dsimp only; omega⟩
    · rw [if_neg h2] at hc
      exact absurd hc (List.not_mem_nil c)

/-- The tunnel always contains its starting point (the first Bresenham
segment shares a coordinate with the start, so the start is its first
cell). -/
theorem tunnle_between_start_mem (p q : Nat × Nat) (o : List Nat) :
    p ∈ (tunnle_between p q o).1 := by
  unfold tunnle_between
  dsimp only
  by_cases hdraw : (oracleNext o).1 % 2 = 0
  · rw [if_pos hdraw]
    apply List.mem_append_left
    unfold bresenhamCells
    rw [if_pos rfl]
    exact List.mem_map.mpr ⟨p.1, natRangeIncl_left_mem _ _, rfl⟩
  · rw [if_neg hdraw]
    apply List.mem_append_left
    unfold bresenhamCells
    by_cases h2 : p.2 = q.2
    · rw [if_pos (show p.2 = ((p.1, q.2) : Nat × Nat).2 from h2)]
      exact List.mem_map.mpr ⟨p.1, natRangeIncl_left_mem _ _, rfl⟩
    · rw [if_neg (show ¬ p.2 = ((p.1, q.2) : Nat × Nat).2 from h2),
        if_pos rfl]
      exact List.mem_map.mpr ⟨p.2, natRangeIncl_left_mem _ _, rfl⟩

/-- Every cell of a tunnel between points with both coordinates at least 1
has both coordinates at least 1. -/
theorem tunnle_between_coords (p q : Nat × Nat) (o : List Nat)
    (hp1 : 1 ≤ p.1) (hp2 : 1 ≤ p.2) (hq1 : 1 ≤ q.1) (hq2 : 1 ≤ q.2) :
    ∀ c ∈ (tunnle_between p q o).1, 1 ≤ c.1 ∧ 1 ≤ c.2 := by
  intro c hc
  unfold tunnle_between at hc
  dsimp only at hc
  by_cases hdraw : (oracleNext o).1 % 2 = 0
  · rw [if_pos hdraw] at hc
    rcases List.mem_append.mp hc with h | h
    · exact bresenhamCells_coords p (q.1, p.2) c hp1 hp2 hq1 hp2 h
    · exact bresenhamCells_coords (q.1, p.2) q c hq1 hp2 hq1 hq2 h
  · rw [if_neg hdraw] at hc
    rcases List.mem_append.mp hc with h | h
    · exact bresenhamCells_coords p (p.1, q.2) c hp1 hp2 hp1 hq2 h
    · exact bresenhamCells_coords (p.1, q.2) q c hp1 hq2 hq1 hq2 h

/-- Carving a list of cells writes exactly those cells to floor. -/
theorem carveCells_apply (cells : List (Nat × Nat)) (tiles : Nat × Nat → Tile)
    (p : Nat × Nat) :
    carveCells cells tiles p =
      if p ∈ cells then Tile.floorTile else tiles p := by
  induction cells generalizing tiles with
  | nil => rfl
  | cons c cs ih =>
    show carveCells cs (setTile tiles c Tile.floorTile) p = _
    rw [ih]
    by_cases h1 : p ∈ cs
    · rw [if_pos h1, if_pos (List.mem_cons_of_mem c h1)]
    · rw [if_neg h1]
      unfold setTile
      by_cases h2 : p = c
      · rw [if_pos h2, if_pos (by rw [h2]; exact List.mem_cons_self c cs)]
      · rw [if_neg h2, if_neg (by simp [List.mem_cons, h1, h2])]

/-- The spawn loop of `place_entities` only appends entity positions: tiles
and the descent marker are untouched. -/
theorem spawnLoop_pres (k : Nat) (room : RectangularRoom) (d : DungeonMap)
    (o : List Nat) :
    (spawnLoop k room d o).1.tiles = d.tiles ∧
    (spawnLoop k room d o).1.downstairs_location = d.downstairs_location := by
  induction k generalizing d o with
  | zero => exact ⟨rfl, rfl⟩
  | succ n ih =>
    unfold spawnLoop
    dsimp only
    constructor
    · rw [(ih _ _).1]
      split <;> rfl
    · rw [(ih _ _).2]
      split <;> rfl

/-- `place_entities` only spawns entities: tiles and the descent marker are
untouched. -/
theorem place_entities_pres (room : RectangularRoom) (d : DungeonMap)
    (floor_number : Nat) (o : List Nat) :
    (place_entities room d floor_number o).1.tiles = d.tiles ∧
    (place_entities room d floor_number o).1.downstairs_location =
      d.downstairs_location := by
  unfold place_entities
  dsimp only
  exact spawnLoop_pres _ _ _ _

/-- Tiles after the first acceptance: the room is carved and the stairs tile
is written at `(0, 0)`; starting from a map with no stairs tile, the stairs
tiles are now exactly `(0, 0)`. -/
theorem tiles_after_first (T : Nat × Nat → Tile) (nr : RectangularRoom)
    (hT : ∀ p, T p ≠ Tile.downStairs) :
    setTile (carveInner nr T) (0, 0) Tile.downStairs (0, 0) =
      Tile.downStairs ∧
    ∀ p, p ≠ ((0 : Nat), (0 : Nat)) →
      setTile (carveInner nr T) (0, 0) Tile.downStairs p ≠
        Tile.downStairs := by
  constructor
  · unfold setTile
    rw [if_pos rfl]
  · intro p hp
    unfold setTile carveInner
    rw [if_neg hp]
    by_cases hin : nr.inInterior p
    · rw [if_pos hin]
      exact fun h => Tile.noConfusion h
    · rw [if_neg hin]
      exact hT p

/-- Tiles after a later acceptance: given a map whose stairs tiles are
exactly `(0, 0)` and the previous marker `D`, carving the new room and a
tunnel through `D` (every carved cell having coordinates at least 1) and then
writing stairs at the new center leaves the stairs tiles exactly `(0, 0)` and
the new center. -/
theorem tiles_after_later (T : Nat × Nat → Tile) (nr : RectangularRoom)
    (L : List (Nat × Nat)) (D : Nat × Nat)
    (hT0 : T (0, 0) = Tile.downStairs)
    (hTD : ∀ p, p ≠ (0, 0) → p ≠ D → T p ≠ Tile.downStairs)
    (hD : D = (0, 0) ∨ D ∈ L)
    (hL : ∀ c ∈ L, 1 ≤ c.1 ∧ 1 ≤ c.2)
    (hcen : 1 ≤ nr.center.1 ∧ 1 ≤ nr.center.2) :
    setTile (carveCells L (carveInner nr T)) nr.center Tile.downStairs
      (0, 0) = Tile.downStairs ∧
    setTile (carveCells L (carveInner nr T)) nr.center Tile.downStairs
      nr.center = Tile.downStairs ∧
    ∀ p, p ≠ ((0 : Nat), (0 : Nat)) → p ≠ nr.center →
      setTile (carveCells L (carveInner nr T)) nr.center Tile.downStairs p ≠
        Tile.downStairs := by
  have hzc : ((0, 0) : Nat × Nat) ≠ nr.center := by
    intro h
    rw [← h] at hcen
    exact absurd hcen.1 (by decide)
  refine ⟨?_, ?_, ?_⟩
  · unfold setTile
    rw [if_neg hzc, carveCells_apply]
    rw [if_neg (fun h => absurd (hL _ h).1 (by decide))]
    unfold carveInner
    rw [if_neg ?_]
    · exact hT0
    · intro hin
      exact absurd (inInterior_coords nr (0, 0) hin).1 (by decide)
  · unfold setTile
    rw [if_pos rfl]
  · intro p hp0 hpc
    unfold setTile
    rw [if_neg hpc, carveCells_apply]
    by_cases hpL : p ∈ L
    · rw [if_pos hpL]
      exact fun h => Tile.noConfusion h
    · rw [if_neg hpL]
      unfold carveInner
      by_cases hin : nr.inInterior p
      · rw [if_pos hin]
        exact fun h => Tile.noConfusion h
      · rw [if_neg hin]
        refine hTD p hp0 ?_
        intro hpD
        rcases hD with h | h
        · exact hp0 (hpD.trans h)
        · exact hpL (hpD ▸ h)

/-- The acceptance body preserves the loop invariant: a first accepted room
writes the stairs at the `(0, 0)` marker; every later accepted room moves the
descent point to its own center while the tunnel (which starts at the previous
marker) erases the previous stairs tile — except the one at `(0, 0)`, which no
carve ever reaches. -/
theorem genAccept_inv (floor_number : Nat) (s : GenState)
    (nr : RectangularRoom) (o : List Nat)
    (hx : nr.x1 + 2 ≤ nr.x2) (hy : nr.y1 + 2 ≤ nr.y2)
    (hs : GenInv s) : GenInv (genAccept floor_number s nr o) := by
  obtain ⟨hA, hB, hC, hD, hE, hF⟩ := hs
  have hcen := center_coords_ge_one nr hx hy
  unfold genAccept
  by_cases hemp : s.rooms.isEmpty
  · have hnil : s.rooms = [] := List.isEmpty_iff.mp hemp
    simp only [hemp, reduceIte]
    refine ⟨?_, ?_, ?_, ?_, ?_, ?_⟩
    · intro h
      exact absurd h (by simp)
    · intro _
      exact (hA hnil).1
    · intro _
      rfl
    · intro hlen
      rw [hnil] at hlen
      simp at hlen
    · intro r hr
      rcases List.mem_append.mp hr with h | h
      · exact hE r h
      · rw [List.mem_singleton.mp h]
        exact ⟨hx, hy⟩
    · intro _
      rw [(place_entities_pres _ _ _ _).1, (hA hnil).1]
      dsimp only
      obtain ⟨l1, l2⟩ := tiles_after_first s.dungeon.tiles nr (hA hnil).2
      exact ⟨l1, l1, fun p hp _ => l2 p hp⟩
  · have hnil : s.rooms ≠ [] := fun h => hemp (by rw [h]; rfl)
    have hfalse : s.rooms.isEmpty = false := by simpa using hemp
    simp only [hfalse]
    rw [if_neg (by decide : ¬((false : Bool) = true))]
    have hdflt : s.rooms.getLastD nr = s.rooms.getLastD roomDefault :=
      getLastD_congr _ _ _ hnil
    have hprev := hE _ (getLastD_mem s.rooms roomDefault hnil)
    have hprev_cen := center_coords_ge_one _ hprev.1 hprev.2
    refine ⟨?_, ?_, ?_, ?_, ?_, ?_⟩
    · intro h
      exact absurd h (by simp)
    · intro hlen
      have h0 : s.rooms.length ≠ 0 := fun h => hnil (List.length_eq_zero.mp h)
      have h1 : s.rooms.length + 1 = 1 := by simpa using hlen
      omega
    · intro _
      rfl
    · intro _
      rw [List.getLastD_concat]
    · intro r hr
      rcases List.mem_append.mp hr with h | h
      · exact hE r h
      · rw [List.mem_singleton.mp h]
        exact ⟨hx, hy⟩
    · intro _
      obtain ⟨hT0, hTD2, hTother⟩ := hF hnil
      have hLcoords : ∀ c ∈ (tunnle_between
          ((s.rooms.getLastD nr).center) nr.center o).1,
          1 ≤ c.1 ∧ 1 ≤ c.2 := by
        apply tunnle_between_coords
        · rw [hdflt]
          exact hprev_cen.1
        · rw [hdflt]
          exact hprev_cen.2
        · exact hcen.1
        · exact hcen.2
      have hDmem : s.dungeon.downstairs_location = (0, 0) ∨
          s.dungeon.downstairs_location ∈ (tunnle_between
            ((s.rooms.getLastD nr).center) nr.center o).1 := by
        rcases Nat.lt_or_ge s.rooms.length 2 with hlt | hge
        · left
          have h0 : s.rooms.length ≠ 0 :=
            fun h => hnil (List.length_eq_zero.mp h)
          have hone : s.rooms.length = 1 := by omega
          rw [hC hnil]
          exact hB hone
        · right
          rw [hC hnil, hD hge, ← hdflt]
          exact tunnle_between_start_mem _ _ _
      rw [(place_entities_pres _ _ _ _).1]
      dsimp only
      exact tiles_after_later s.dungeon.tiles nr _ _ hT0 hTother hDmem
        hLcoords hcen

/-- One generator iteration preserves the loop invariant. -/
theorem genStep_inv (room_min_size room_max_size floor_number : Nat)
    (hmin : 2 ≤ room_min_size) (s : GenState) (hs : GenInv s) :
    GenInv (genStep room_min_size room_max_size floor_number s) := by
  unfold genStep
  dsimp only
  split
  · obtain ⟨hA, hB, hC, hD, hE, hF⟩ := hs
    exact ⟨hA, hB, hC, hD, hE, hF⟩
  · have hw := pyRandint_ge room_min_size room_max_size s.oracle
    have hh := pyRandint_ge room_min_size room_max_size
      (pyRandint room_min_size room_max_size s.oracle).2
    apply genAccept_inv
    · simp only [RectangularRoom.make]
      omega
    · simp only [RectangularRoom.make]
      omega
    · exact hs

/-- Running the loop preserves the invariant. -/
theorem genLoop_inv (room_min_size room_max_size floor_number : Nat)
    (hmin : 2 ≤ room_min_size) (k : Nat) (s : GenState) (hs : GenInv s) :
    GenInv (genLoop room_min_size room_max_size floor_number k s) := by
  induction k generalizing s with
  | zero => exact hs
  | succ n ih =>
    exact ih _ (genStep_inv room_min_size room_max_size floor_number hmin s hs)

/-- C2 amended: for every floor produced by `generate_dungeon` (minimum room
side at least 2, as in the game configuration): with exactly one accepted room
the descent point stays at the initial `(0, 0)` marker; with at least two
accepted rooms it equals the final accepted room's center, inside that room's
interior and distinct from `(0, 0)`; and whenever at least one room is
accepted, the cells carrying a stairs tile are exactly `(0, 0)` — written
while processing the first accepted room and never overwritten — together
with the descent point (so a multi-room floor carries two stairs tiles, a
one-room floor carries one, at `(0, 0)` outside every room). -/
theorem generate_dungeon_descent_amended
    (max_rooms room_min_size room_max_size map_width map_height
      floor_number : Nat) (o : List Nat) (res : GenState)
    (hmin : 2 ≤ room_min_size)
    (hres : res = generate_dungeon max_rooms room_min_size room_max_size
      map_width map_height floor_number o) :
    (res.rooms.length = 1 → res.dungeon.downstairs_location = (0, 0)) ∧
    (2 ≤ res.rooms.length →
      res.dungeon.downstairs_location =
        (res.rooms.getLastD roomDefault).center ∧
      (res.rooms.getLastD roomDefault).inInterior
        res.dungeon.downstairs_location = true ∧
      res.dungeon.downstairs_location ≠ (0, 0)) ∧
    (res.rooms ≠ [] →
      res.dungeon.tiles (0, 0) = Tile.downStairs ∧
      res.dungeon.tiles res.dungeon.downstairs_location = Tile.downStairs ∧
      ∀ p, p ≠ (0, 0) → p ≠ res.dungeon.downstairs_location →
        res.dungeon.tiles p ≠ Tile.downStairs) := by
  have hinv : GenInv res := by
    rw [hres]
    unfold generate_dungeon
    apply genLoop_inv _ _ _ hmin
    refine ⟨fun _ => ⟨rfl, fun p h => Tile.noConfusion h⟩, ?_, ?_, ?_, ?_, ?_⟩
    · intro h
      simp at h
    · intro h
      exact absurd rfl h
    · intro h
      simp at h
    · intro r hr
      exact absurd hr (List.not_mem_nil r)
    · intro h
      exact absurd rfl h
  obtain ⟨hA, hB, hC, hD, hE, hF⟩ := hinv
  refine ⟨?_, ?_, hF⟩
  · intro h1
    have hne : res.rooms ≠ [] := by
      intro h
      rw [h] at h1
      simp at h1
    rw [hC hne]
    exact hB h1
  · intro h2
    have hne : res.rooms ≠ [] := by
      intro h
      rw [h] at h2
      simp at h2
    have hbounds := hE _ (getLastD_mem res.rooms roomDefault hne)
    have hcen := center_coords_ge_one _ hbounds.1 hbounds.2
    have hdsc : res.dungeon.downstairs_location =
        (res.rooms.getLastD roomDefault).center := (hC hne).trans (hD h2)
    refine ⟨hdsc, ?_, ?_⟩
    · rw [hdsc]
      exact center_inInterior _ hbounds.1 hbounds.2
    · rw [hdsc]
      intro hz
      rw [hz] at hcen
      exact absurd hcen.1 (by decide)

/-- C2 amended witness: the two-room run has its descent point at (23, 23),
the final room's center, inside its interior and distinct from (0, 0); the
stairs tiles are (0, 0) and the descent point, while the first room's center
(5, 5) — the intermediate marker — was carved back to floor by the tunnel. -/
theorem generate_dungeon_descent_amended_witness :
    genWitnessRun.rooms.length = 2 ∧
    genWitnessRun.dungeon.downstairs_location =
      (genWitnessRun.rooms.getLastD roomDefault).center ∧
    (genWitnessRun.rooms.getLastD roomDefault).inInterior
      genWitnessRun.dungeon.downstairs_location = true ∧
    genWitnessRun.dungeon.downstairs_location ≠ (0, 0) ∧
    genWitnessRun.dungeon.tiles (0, 0) = Tile.downStairs ∧
    genWitnessRun.dungeon.tiles genWitnessRun.dungeon.downstairs_location =
      Tile.downStairs ∧
    genWitnessRun.dungeon.tiles (5, 5) ≠ Tile.downStairs := by
  have h := generate_dungeon_descent_amended 2 6 6 30 30 0 genWitnessOracle
    genWitnessRun (by decide) rfl
  obtain ⟨h1, h2, h3⟩ := h
  obtain ⟨ha, hb, hc⟩ := h2 (by decide)
  obtain ⟨hd, he, hf⟩ := h3 (by decide)
  exact ⟨by decide, ha, hb, hc, hd, he, hf (5, 5) (by decide) (by decide)⟩
